import Mathlib

/-!
# Verification of the EduCore per-room audio buffering and dispatch engine

Shallow embedding of the audio-processing core of `backend/app.py`
(`RoomAudioProcessor` together with the module-level chunk-ingestion
helpers), with theorems checking the natural-language specification
against it.

Modelling conventions:
* Byte strings are `List Nat` (only lengths and concatenation matter here).
* Timestamps are `Int` milliseconds.  The Python code converts the elapsed
  time to seconds by floating-point division `(ts - first) / 1000.0` and
  compares against the literals `30.0`, `10.0`, `45.0`; for integer
  millisecond inputs those comparisons are exactly equivalent to the
  integer comparisons `elapsedMs ≥ 30000`, `≥ 10000`, `≥ 45000`
  (the quotients of the boundary values are exactly representable and
  rounding is monotone), so the embedding uses integer milliseconds.
* Probabilities and the repetition ratio are `Rat`.  The code compares
  `max_word_count / len(words)` (a correctly rounded float of an exact
  rational with tiny numerator and denominator) against `0.6` and `0.3`;
  for the word counts reachable here the float comparisons agree exactly
  with the rational ones.
* External collaborators (ffmpeg decode, the Whisper model, the stores)
  are inputs: their observable outcomes are fields of an environment
  record, and store invocations are reified as a list of `StoreCall`s.
-/

namespace EduCore

/-! ## Configuration constants (`RoomAudioProcessor.__init__`, line 505-511,
and module level line 269) -/

/-- `MAX_AUDIO_FILE_SIZE = 10 * 1024 * 1024` (app.py line 269). -/
def MAX_AUDIO_FILE_SIZE : Nat := 10 * 1024 * 1024

/-- `self.MIN_BUFFER_SIZE = 500000`. -/
def MIN_BUFFER_SIZE : Nat := 500000

/-- `self.MAX_BUFFER_SIZE = 1500000`. -/
def MAX_BUFFER_SIZE : Nat := 1500000

/-- `self.MIN_AUDIO_DURATION = 10.0` seconds, in milliseconds. -/
def MIN_AUDIO_DURATION_MS : Int := 10000

/-- `self.WHISPER_OPTIMAL_DURATION = 30.0` seconds, in milliseconds. -/
def WHISPER_OPTIMAL_DURATION_MS : Int := 30000

/-- `self.MIN_CHUNK_COUNT = 500`. -/
def MIN_CHUNK_COUNT : Nat := 500

/-- `self.FORCE_PROCESS_TIMEOUT = 45.0` seconds, in milliseconds. -/
def FORCE_PROCESS_TIMEOUT_MS : Int := 45000

/-! ## Flush decision (`_process_audio_for_transcription`, lines 638-670) -/

/-- The reasons of the flush-decision if/elif chain, in source order. -/
inductive FlushReason where
  | optimalDuration
  | sufficientBytes
  | maxBytes
  | minDuration
  | forcedTimeout
  | chunkCountFloor
  deriving DecidableEq, Repr

/-- The `should_process` / `reason` computation of
`_process_audio_for_transcription` (lines 642-670): an if/elif chain
evaluated after the chunk has been appended, with
`elapsedMs = timestamp - buffer['first_chunk_time']` (the code divides by
1000 and compares in seconds; see the header note on exactness).
`none` means "continue accumulating". -/
def flushDecision (elapsedMs : Int) (totalBytes : Nat) (numChunks : Nat) :
    Option FlushReason :=
  if elapsedMs ≥ WHISPER_OPTIMAL_DURATION_MS ∧ totalBytes ≥ 100000 then
    some .optimalDuration
  else if totalBytes ≥ MIN_BUFFER_SIZE then
    some .sufficientBytes
  else if totalBytes ≥ MAX_BUFFER_SIZE then
    some .maxBytes
  else if elapsedMs ≥ MIN_AUDIO_DURATION_MS ∧ totalBytes ≥ 200000 then
    some .minDuration
  else if elapsedMs ≥ FORCE_PROCESS_TIMEOUT_MS then
    some .forcedTimeout
  else if numChunks ≥ MIN_CHUNK_COUNT ∧ totalBytes ≥ 300000 then
    some .chunkCountFloor
  else
    none

/-! ## The spec's rule table (§4.3), as written: an ordered list of rules,
first match wins.  This definition follows the SPEC's words, to be compared
against `flushDecision`, which follows the code. -/

/-- One row of the §4.3 table: a condition on
(elapsedMs, totalBytes, numChunks) and the reason it yields. -/
structure FlushRule where
  cond : Int → Nat → Nat → Bool
  reason : FlushReason

/-- The §4.3 table, top to bottom. -/
def specFlushTable : List FlushRule :=
  [ ⟨fun e tb _ => e ≥ 30000 ∧ tb ≥ 100000, .optimalDuration⟩,
    ⟨fun _ tb _ => tb ≥ 500000, .sufficientBytes⟩,
    ⟨fun _ tb _ => tb ≥ 1500000, .maxBytes⟩,
    ⟨fun e tb _ => e ≥ 10000 ∧ tb ≥ 200000, .minDuration⟩,
    ⟨fun e _ _ => e ≥ 45000, .forcedTimeout⟩,
    ⟨fun _ tb nc => nc ≥ 500 ∧ tb ≥ 300000, .chunkCountFloor⟩ ]

/-- First-matching-rule evaluation of a rule table (the spec's
"first matching rule wins, evaluated top to bottom"; "if no rule matches,
the decision is to continue accumulating"). -/
def firstMatch (rules : List FlushRule) (e : Int) (tb nc : Nat) :
    Option FlushReason :=
  match rules with
  | [] => none
  | r :: rest =>
      if r.cond e tb nc then some r.reason else firstMatch rest e tb nc

/-! ## Audio items and the room buffer
(`handle_audio_chunk` line 409-416 builds the item; the buffer dict is the
`defaultdict` default of `__init__` lines 496-502; `Append` is lines
618-630 of `_process_audio_for_transcription`). -/

/-- The dict enqueued per chunk (`audio_item`, lines 410-416).
`chunk_count` is carried but never used by the buffering logic, so it is
omitted. -/
structure AudioItem where
  roomId : String
  producerId : String
  timestamp : Int
  audioBytes : List Nat
  deriving DecidableEq, Repr

/-- One element of `buffer['chunks']`: `{'data': ..., 'timestamp': ...,
'size': len(...)}` (lines 619-623). -/
structure BufChunk where
  data : List Nat
  timestamp : Int
  size : Nat
  deriving DecidableEq, Repr

/-- `self.room_audio_buffers[buffer_key]` (lines 496-502). -/
structure RoomBuffer where
  chunks : List BufChunk
  totalBytes : Nat
  lastChunkTime : Int
  firstChunkTime : Option Int
  producerId : Option String
  deriving DecidableEq, Repr

/-- The `defaultdict` default buffer (lines 496-502). -/
def emptyBuffer : RoomBuffer :=
  { chunks := [], totalBytes := 0, lastChunkTime := 0,
    firstChunkTime := none, producerId := none }

/-- The buffer element built from an incoming item (lines 619-623). -/
def AudioItem.toBufChunk (item : AudioItem) : BufChunk :=
  ⟨item.audioBytes, item.timestamp, item.audioBytes.length⟩

/-- `Append` (lines 618-630): append to `chunks`, add the byte length to
`total_bytes`, set `last_chunk_time` and `producer_id`, and set
`first_chunk_time` only if it is unset. -/
def appendChunk (b : RoomBuffer) (item : AudioItem) : RoomBuffer :=
  { chunks := b.chunks ++ [item.toBufChunk],
    totalBytes := b.totalBytes + item.audioBytes.length,
    lastChunkTime := item.timestamp,
    producerId := some item.producerId,
    firstChunkTime :=
      match b.firstChunkTime with
      | none => some item.timestamp
      | some t => some t }

/-- Appending a whole sequence of chunks, in arrival order. -/
def appendAll (b : RoomBuffer) (items : List AudioItem) : RoomBuffer :=
  items.foldl appendChunk b

/-! ## ASR results and the acceptance filter
(`_transcribe_with_whisper`, lines 778-990).  The ffmpeg decode and the
Whisper model are external collaborators; their observable outcomes are
inputs of the embedding.

Python strings are modelled as `List Char` and Python float probabilities
and ratios as `Rat` built with `mkRat`; see the header note on why the
float comparisons of the source are exactly the rational ones. -/

/-- Python `str.strip()`: drop leading and trailing whitespace. -/
def pyStrip (s : List Char) : List Char :=
  ((s.dropWhile Char.isWhitespace).reverse.dropWhile Char.isWhitespace).reverse

/-- Python `str.lower()`. -/
def pyLower (s : List Char) : List Char := s.map Char.toLower

/-- Helper of `pySplit`: walks the characters, accumulating the current
token reversed. -/
def pySplitAux : List Char → List Char → List (List Char)
  | [], acc => if acc.isEmpty then [] else [acc.reverse]
  | c :: cs, acc =>
      if c.isWhitespace then
        if acc.isEmpty then pySplitAux cs []
        else acc.reverse :: pySplitAux cs []
      else pySplitAux cs (c :: acc)

/-- Python `str.split()` with no argument: split on whitespace runs,
producing no empty tokens. -/
def pySplit (s : List Char) : List (List Char) := pySplitAux s []

/-- One element of the Whisper `segments` list; only `no_speech_prob` is
inspected by the core (line 968). -/
structure Segment where
  noSpeechProb : Rat
  deriving DecidableEq, Repr

/-- The Whisper result dict fields read by the core (lines 912-915). -/
structure AsrResult where
  text : List Char
  language : List Char
  noSpeechProb : Rat
  segments : List Segment
  deriving DecidableEq, Repr

/-- `transcription.lower().split()` (line 939). -/
def pyWords (s : List Char) : List (List Char) := pySplit (pyLower s)

/-- `max(word_counts.values())` (lines 942-947): the highest occurrence
count of any single token. -/
def maxWordCount (ws : List (List Char)) : Nat :=
  (ws.map fun w => ws.count w).foldr max 0

/-- Python `pat in s`: contiguous substring occurrence. -/
def pyContains (s pat : List Char) : Bool :=
  (List.range (s.length + 1)).any fun i => pat.isPrefixOf (s.drop i)

/-- `teacher_patterns` (line 951). -/
def teacherPatterns : List (List Char) :=
  ["teacher".toList, "he is a teacher".toList, "not a teacher".toList]

/-- The `has_meaningful_speech` computation (lines 928-972), as a function
of the (already stripped) transcription, the top-level `no_speech_prob`,
and the segments.
Check 1 sets the flag from `no_speech_prob < 0.7`; check 2 overwrites it
whenever the transcription is non-empty (every path of the word analysis
assigns it); check 3 raises it to true when some segment has
`no_speech_prob < 0.8`. -/
def hasMeaningfulSpeech (transcription : List Char) (noSpeechProb : Rat)
    (segments : List Segment) : Bool :=
  let afterCheck1 : Bool := noSpeechProb < mkRat 7 10
  let afterCheck2 : Bool :=
    if transcription.isEmpty then afterCheck1
    else
      let words := pyWords transcription
      if words.length > 5 then
        let repetitionRatio : Rat := mkRat (maxWordCount words) words.length
        let hasTeacherPat : Bool :=
          teacherPatterns.any fun p => pyContains (pyLower transcription) p
        if repetitionRatio > mkRat 3 5 then false
        else if hasTeacherPat ∧ repetitionRatio > mkRat 3 10 then false
        else true
      else true
  if segments.any (fun s => s.noSpeechProb < mkRat 4 5) then true
  else afterCheck2

/-- Observable outcomes of the external collaborators used by
`_transcribe_with_whisper`. -/
structure WhisperEnv where
  /-- Some ffmpeg interpretation (Opus first, then the raw-PCM fallback)
  produced a WAV file (lines 825-862). -/
  decodeOk : Bool
  /-- `wav_size ≥ 32000` (lines 873-878). -/
  wavBigEnough : Bool
  /-- The value returned by `AI_MODELS['whisper'].transcribe` (line 897). -/
  asr : AsrResult
  deriving DecidableEq, Repr

/-- `_transcribe_with_whisper` after the external steps (lines 836-979):
`none` models the `return None, None` paths (decode failure, WAV too
small, or the acceptance filter rejecting); `some (t, r)` models
`return transcription, result`. -/
def transcribeWithWhisper (env : WhisperEnv) :
    Option (List Char × AsrResult) :=
  if ¬ env.decodeOk then none
  else if ¬ env.wavBigEnough then none
  else
    let transcription := pyStrip env.asr.text
    if hasMeaningfulSpeech transcription env.asr.noSpeechProb
        env.asr.segments then
      some (transcription, env.asr)
    else none

/-! ## Flush processing (`_process_buffered_audio`, lines 699-776) -/

/-- A reified call to one of the storage collaborators
(`store_transcription_metadata` line 751, `store_transcription_in_chromadb`
line 756). -/
inductive StoreCall where
  | file (roomId : String) (producerId : Option String) (timestamp : Int)
      (text : List Char)
  | chroma (roomId : String) (producerId : Option String) (timestamp : Int)
      (text : List Char)
  deriving DecidableEq, Repr

/-- Which transcription the flush ended up using: the (accepted, non-empty)
ASR text, or the simulated fallback string of line 742. -/
inductive TranscriptionSource where
  | fromAsr
  | fromSimulated
  deriving DecidableEq, Repr

/-- The fallback string of line 742,
`f"[Simulated transcription for room {room_id} at {timestamp}]"`. -/
def simulatedTranscription (roomId : String) (timestamp : Int) : List Char :=
  "[Simulated transcription for room ".toList ++ roomId.toList
    ++ " at ".toList ++ (toString timestamp).toList ++ "]".toList

/-- Availability flags and external outcomes for one flush. -/
structure FlushEnv where
  /-- `AI_INITIALIZED['whisper'] and AI_MODELS['whisper']` (line 730). -/
  whisperAvailable : Bool
  whisper : WhisperEnv
  /-- `AI_INITIALIZED['chromadb'] and AI_INITIALIZED['embedding']`
  (line 754). -/
  chromaAvailable : Bool
  deriving DecidableEq, Repr

/-- `_process_buffered_audio` (lines 699-776): returns the store calls
made and, when the early `return` for an empty chunk list is not taken,
which transcription source was used.
The code sets `transcription = None`, possibly overwrites it from Whisper,
replaces falsy values (None or the empty string) by the simulated string
(lines 741-744), and stores iff `len(transcription.strip()) > 10`
(line 746), writing the file store always and the ChromaDB store only when
available (lines 751-758). -/
def processBufferedAudio (env : FlushEnv) (roomId : String)
    (b : RoomBuffer) : List StoreCall × Option TranscriptionSource :=
  if b.chunks = [] then ([], none)
  else
    let timestamp := b.lastChunkTime
    let whisperOut :=
      if env.whisperAvailable then transcribeWithWhisper env.whisper
      else none
    let picked : List Char × TranscriptionSource :=
      match whisperOut with
      | some (t, _) =>
          if t.isEmpty then (simulatedTranscription roomId timestamp,
            .fromSimulated)
          else (t, .fromAsr)
      | none => (simulatedTranscription roomId timestamp, .fromSimulated)
    let transcription := picked.1
    if (pyStrip transcription).length > 10 then
      ([StoreCall.file roomId b.producerId timestamp transcription]
        ++ (if env.chromaAvailable then
              [StoreCall.chroma roomId b.producerId timestamp transcription]
            else []),
       some picked.2)
    else ([], some picked.2)

/-! ## One worker iteration
(`_process_audio_for_transcription`, lines 599-697) -/

/-- One iteration of the worker body for a dequeued item: the oversized
check (lines 610-612), `Append` (lines 618-630), the flush decision
(lines 638-670), and on flush the processing of the buffer followed by the
reset (lines 672-686).  Returns the new buffer, the store calls made, and
the flush reason if a flush was triggered. -/
def processChunkStep (env : FlushEnv) (roomId : String) (b : RoomBuffer)
    (item : AudioItem) :
    RoomBuffer × List StoreCall × Option FlushReason :=
  if item.audioBytes.length > MAX_AUDIO_FILE_SIZE then (b, [], none)
  else
    let b' := appendChunk b item
    let elapsed := item.timestamp - b'.firstChunkTime.getD item.timestamp
    match flushDecision elapsed b'.totalBytes b'.chunks.length with
    | some r =>
        ({ chunks := [], totalBytes := 0, lastChunkTime := item.timestamp,
           firstChunkTime := none, producerId := some item.producerId },
         (processBufferedAudio env roomId b').1, some r)
    | none => (b', [], none)

/-! ## The ingestion path
(`handle_audio_chunk` lines 380-434 and `add_audio_chunk` lines 537-561).
The room queue is modelled as the list of items it holds. -/

/-- `add_audio_chunk` (lines 537-561): reject when `room_id` is falsy,
otherwise enqueue into the room's bounded queue (`maxsize=50`, line 520);
`queue.Full` drops the chunk and returns `False`.  There is no size check
on this path. -/
def addAudioChunk (q : List AudioItem) (item : AudioItem) :
    List AudioItem × Bool :=
  if item.roomId = "" then (q, false)
  else if q.length < 50 then (q ++ [item], true)
  else (q, false)

/-- `handle_audio_chunk` (lines 380-434): drop when the audio payload is
empty (line 390), otherwise decode and hand to `add_audio_chunk`.  There
is no size check on this path either. -/
def handleAudioChunk (q : List AudioItem) (item : AudioItem) :
    List AudioItem × Bool :=
  if item.audioBytes = [] then (q, false) else addAudioChunk q item

/-! ## Helper projections and the spec's acceptance conditions (§4.4) -/

/-- The transcript text a store call carries. -/
def StoreCall.text : StoreCall → List Char
  | .file _ _ _ t => t
  | .chroma _ _ _ t => t

/-- Replace the ASR outcome of an environment, leaving everything else
unchanged (used to state that a path never consults the ASR result). -/
def FlushEnv.withAsr (env : FlushEnv) (r : AsrResult) : FlushEnv :=
  { env with whisper := { env.whisper with asr := r } }

/-- Spec acceptance condition (a), following the SPEC's words: "result
text length > 10 characters after trimming". -/
def specAcceptA (r : AsrResult) : Prop := (pyStrip r.text).length > 10

/-- Spec acceptance condition (b), following the SPEC's words: "either
`noSpeechProb < 0.7`, or at least one returned segment has
`noSpeechProb < 0.8`". -/
def specAcceptB (r : AsrResult) : Prop :=
  r.noSpeechProb < mkRat 7 10 ∨ ∃ s ∈ r.segments, s.noSpeechProb < mkRat 4 5

/-- Spec acceptance condition (c), following the SPEC's words: "tokenize
text on whitespace; if token count > 5, compute the most-frequent token's
share of total tokens; reject if that share > 0.6". -/
def specAcceptC (r : AsrResult) : Prop :=
  (pyWords (pyStrip r.text)).length > 5 →
    mkRat (maxWordCount (pyWords (pyStrip r.text)))
      (pyWords (pyStrip r.text)).length ≤ mkRat 3 5

instance (r : AsrResult) : Decidable (specAcceptA r) := by
  unfold specAcceptA; infer_instance

instance (r : AsrResult) : Decidable (specAcceptB r) := by
  unfold specAcceptB; infer_instance

instance (r : AsrResult) : Decidable (specAcceptC r) := by
  unfold specAcceptC; infer_instance

/-! ## Concurrent worker creation
(`get_or_create_room_queue`, lines 513-535, reached from
`add_audio_chunk` line 545 by transport threads delivering chunks of the
same room).

The double-checked creation for one room, raced by two threads each
delivering one first chunk, is modelled as an interleaving transition
system.  Each atomic step is an operation that is atomic in CPython under
the GIL: the unlocked membership test (line 515); the per-room lock
acquisition (line 516 — `self.room_locks` is a `defaultdict` whose
`__missing__` runs entirely in C, so both threads obtain the same lock
object); the re-check plus creation plus release while the lock is held
(lines 518-533: writes to `room_queues` happen only under this lock, and
the other thread's unlocked read is its own separate step, so fusing the
critical section with the release loses no observable interleaving); and
the `queue.put` (line 548, queue capacity 50). -/

/-- Program counter of one thread running `get_or_create_room_queue`
followed by `room_queue.put`. -/
inductive ThreadPc where
  /-- Before the unlocked membership check of line 515. -/
  | start
  /-- The check saw no queue; about to acquire the per-room lock. -/
  | wantLock
  /-- Holds the lock; about to re-check, possibly create, and release. -/
  | inCritical
  /-- Past the creation section; about to `put` the chunk. -/
  | beforePut
  /-- Chunk enqueued (or dropped on `queue.Full`). -/
  | done
  deriving DecidableEq, Repr

/-- Shared registry state for one room plus the two thread counters. -/
structure RegistryState where
  /-- `room_id in self.room_queues`. -/
  queueCreated : Bool
  /-- The per-room creation lock. -/
  lockHeld : Bool
  /-- How many times the creation block (lines 519-531) ran. -/
  createCount : Nat
  /-- Chunks enqueued into the room queue. -/
  queueLen : Nat
  /-- Chunks dropped because the queue was full. -/
  droppedCount : Nat
  pc1 : ThreadPc
  pc2 : ThreadPc
  deriving DecidableEq, Repr

/-- One atomic step of a single thread at program counter `pc`, given the
shared state; `none` when the thread is blocked (waiting on the lock) or
finished.  The returned state has the stepping thread's new counter
returned separately. -/
def stepOf (s : RegistryState) (pc : ThreadPc) :
    Option (RegistryState × ThreadPc) :=
  match pc with
  | .start =>
      some (s, if s.queueCreated then .beforePut else .wantLock)
  | .wantLock =>
      if s.lockHeld then none
      else some ({ s with lockHeld := true }, .inCritical)
  | .inCritical =>
      if s.queueCreated then
        some ({ s with lockHeld := false }, .beforePut)
      else
        some ({ s with queueCreated := true,
                       createCount := s.createCount + 1,
                       lockHeld := false }, .beforePut)
  | .beforePut =>
      if s.queueLen < 50 then
        some ({ s with queueLen := s.queueLen + 1 }, .done)
      else
        some ({ s with droppedCount := s.droppedCount + 1 }, .done)
  | .done => none

/-- All interleaving successors: either thread takes its step. -/
def regSuccs (s : RegistryState) : List RegistryState :=
  ((stepOf s s.pc1).map fun p => { p.1 with pc1 := p.2 }).toList
    ++ ((stepOf s s.pc2).map fun p => { p.1 with pc2 := p.2 }).toList

/-- Initial state: no queue, lock free, both threads about to dispatch
their first chunk for the room. -/
def initRegistry : RegistryState :=
  { queueCreated := false, lockHeld := false, createCount := 0,
    queueLen := 0, droppedCount := 0, pc1 := .start, pc2 := .start }

/-- Reachability under arbitrary interleaving. -/
inductive ReachableReg : RegistryState → Prop where
  | init : ReachableReg initRegistry
  | step {s t : RegistryState} :
      ReachableReg s → t ∈ regSuccs s → ReachableReg t

/-- One breadth-first expansion of a set of states. -/
def exploreStep (l : List RegistryState) : List RegistryState :=
  (l ++ l.flatMap regSuccs).dedup

/-- All states reachable within ten expansions (each thread takes at most
four steps, so this exhausts the reachable set). -/
def reachList : List RegistryState :=
  exploreStep^[10] [initRegistry]

/-!
# Theorems

First some helper lemmas shared by several claims, then one theorem per
claim (with a witness instance when the theorem carries hypotheses).
-/

/-! ## Helper lemmas -/

/-- Bookkeeping of `appendAll` relative to an arbitrary starting buffer. -/
theorem appendAll_spec (items : List AudioItem) (b : RoomBuffer) :
    (appendAll b items).totalBytes
        = b.totalBytes + (items.map fun i => i.audioBytes.length).sum ∧
    (appendAll b items).chunks = b.chunks ++ items.map AudioItem.toBufChunk ∧
    (appendAll b items).firstChunkTime
        = b.firstChunkTime.or ((items.map fun i => i.timestamp).head?) ∧
    (appendAll b items).lastChunkTime
        = (items.map fun i => i.timestamp).getLastD b.lastChunkTime := by
  induction items generalizing b with
  | nil =>
      refine ⟨by simp [appendAll], by simp [appendAll], ?_,
        by simp [appendAll]⟩
      cases hb : b.firstChunkTime <;> simp [appendAll, hb]
  | cons i rest ih =>
      have h := ih (appendChunk b i)
      simp only [appendAll, List.foldl_cons] at h ⊢
      refine ⟨?_, ?_, ?_, ?_⟩
      · rw [h.1]; simp [appendChunk]; ring
      · rw [h.2.1]; simp [appendChunk]
      · rw [h.2.2.1]; cases hb : b.firstChunkTime <;>
          simp [appendChunk, hb]
      · rw [h.2.2.2]
        simp only [appendChunk, List.map_cons, List.getLastD_cons]

/-- The `has_meaningful_speech` flag, spelled out as a predicate: a
confident segment always accepts; otherwise a non-empty transcription is
accepted unless it has more than five tokens and either a dominant-token
share above 0.6 or the teacher pattern with a share above 0.3; an empty
transcription falls back to the `no_speech_prob < 0.7` check. -/
theorem hasMeaningfulSpeech_iff (t : List Char) (nsp : Rat)
    (segs : List Segment) :
    hasMeaningfulSpeech t nsp segs = true ↔
      ((∃ s ∈ segs, s.noSpeechProb < mkRat 4 5) ∨
        (t ≠ [] ∧ ((pyWords t).length ≤ 5 ∨
          (mkRat (maxWordCount (pyWords t)) (pyWords t).length ≤ mkRat 3 5 ∧
            ¬((teacherPatterns.any fun p => pyContains (pyLower t) p) = true ∧
              mkRat (maxWordCount (pyWords t)) (pyWords t).length
                > mkRat 3 10)))) ∨
        (t = [] ∧ nsp < mkRat 7 10)) := by
  simp only [hasMeaningfulSpeech]
  have hbseg : (segs.any fun s => decide (s.noSpeechProb < mkRat 4 5)) = true
      ↔ ∃ s ∈ segs, s.noSpeechProb < mkRat 4 5 := by
    simp
  by_cases hseg : ∃ s ∈ segs, s.noSpeechProb < mkRat 4 5
  · rw [if_pos (hbseg.mpr hseg)]
    exact iff_of_true rfl (Or.inl hseg)
  · rw [if_neg (fun h => hseg (hbseg.mp h))]
    by_cases htnil : t = []
    · subst htnil
      rw [if_pos (by rfl)]
      constructor
      · intro h
        exact Or.inr (Or.inr ⟨rfl, of_decide_eq_true h⟩)
      · rintro (h | ⟨hne, _⟩ | ⟨_, hlt⟩)
        · exact absurd h hseg
        · exact absurd rfl hne
        · exact decide_eq_true hlt
    · rw [if_neg (by simpa [List.isEmpty_iff] using htnil)]
      by_cases hlen : (pyWords t).length > 5
      · rw [if_pos hlen]
        by_cases hratio :
            mkRat (maxWordCount (pyWords t)) (pyWords t).length > mkRat 3 5
        · rw [if_pos hratio]
          refine iff_of_false (by simp) ?_
          rintro (h | ⟨_, h5 | ⟨hle, _⟩⟩ | ⟨hnil, _⟩)
          · exact hseg h
          · omega
          · exact absurd hratio (not_lt.mpr hle)
          · exact htnil hnil
        · rw [if_neg hratio]
          by_cases hteach :
              (teacherPatterns.any fun p => pyContains (pyLower t) p) = true
                ∧ mkRat (maxWordCount (pyWords t)) (pyWords t).length
                    > mkRat 3 10
          · rw [if_pos hteach]
            refine iff_of_false (by simp) ?_
            rintro (h | ⟨_, h5 | ⟨_, hnot⟩⟩ | ⟨hnil, _⟩)
            · exact hseg h
            · omega
            · exact hnot hteach
            · exact htnil hnil
          · rw [if_neg hteach]
            exact iff_of_true rfl
              (Or.inr (Or.inl ⟨htnil,
                Or.inr ⟨not_lt.mp hratio, hteach⟩⟩))
      · rw [if_neg hlen]
        exact iff_of_true rfl
          (Or.inr (Or.inl ⟨htnil, Or.inl (by omega)⟩))

/-- A transcription that splits into exactly three tokens always passes
the `has_meaningful_speech` computation: it is non-empty and its token
count is at most five, so check 2 accepts it unconditionally. -/
theorem threeWords_accepted (t : List Char) (nsp : Rat)
    (segs : List Segment) (h3 : (pyWords t).length = 3) :
    hasMeaningfulSpeech t nsp segs = true := by
  simp only [hasMeaningfulSpeech]
  have ht : t.isEmpty = false := by
    rcases Bool.eq_false_or_eq_true t.isEmpty with hb | hb
    · rw [List.isEmpty_iff] at hb
      rw [hb] at h3
      simp [pyWords, pySplit, pyLower, pySplitAux] at h3
    · exact hb
  simp only [ht, Bool.false_eq_true, if_false, h3]
  norm_num

/-- The flush stores the ASR transcription (rather than the simulated
fallback) exactly when Whisper is available, both decode gates pass, the
acceptance computation accepts, and the stripped text passes the final
length gate of line 746. -/
theorem processBufferedAudio_fromAsr_iff (env : FlushEnv) (roomId : String)
    (b : RoomBuffer) (hc : b.chunks ≠ []) :
    ((processBufferedAudio env roomId b).2 = some .fromAsr ∧
        (processBufferedAudio env roomId b).1 ≠ []) ↔
      (env.whisperAvailable = true ∧ env.whisper.decodeOk = true ∧
        env.whisper.wavBigEnough = true ∧
        hasMeaningfulSpeech (pyStrip env.whisper.asr.text)
          env.whisper.asr.noSpeechProb env.whisper.asr.segments = true ∧
        (pyStrip (pyStrip env.whisper.asr.text)).length > 10) := by
  rcases hw : env.whisperAvailable with _ | _
  · simp [processBufferedAudio, hc, hw]
    split <;> simp
  · rcases hd : env.whisper.decodeOk with _ | _
    · simp [processBufferedAudio, transcribeWithWhisper, hc, hw, hd]
      split <;> simp
    · rcases hv : env.whisper.wavBigEnough with _ | _
      · simp [processBufferedAudio, transcribeWithWhisper, hc, hw, hd, hv]
        split <;> simp
      · rcases hm : hasMeaningfulSpeech (pyStrip env.whisper.asr.text)
            env.whisper.asr.noSpeechProb env.whisper.asr.segments with _ | _
        · simp [processBufferedAudio, transcribeWithWhisper, hc, hw, hd,
            hv, hm]
          split <;> simp
        · rcases ht : (pyStrip env.whisper.asr.text).isEmpty with _ | _
          · by_cases hg :
                10 < (pyStrip (pyStrip env.whisper.asr.text)).length
            · simp [processBufferedAudio, transcribeWithWhisper, hc, hw,
                hd, hv, hm, ht, hg]
            · simp [processBufferedAudio, transcribeWithWhisper, hc, hw,
                hd, hv, hm, ht, hg]
          · rw [List.isEmpty_iff] at ht
            rw [ht] at hm
            simp [processBufferedAudio, transcribeWithWhisper, hc, hw,
              hd, hv, hm, ht]
            constructor
            · rintro ⟨h1, -⟩
              split at h1 <;> simp at h1
            · intro hlen
              simp [pyStrip] at hlen

/-- Shape of `_process_buffered_audio` whenever the Whisper path yields
no transcription (unavailable, decode failure, or rejection): the
simulated placeholder is picked and, when it passes the length gate,
stored. -/
theorem processBufferedAudio_none (env : FlushEnv) (roomId : String)
    (b : RoomBuffer)
    (hn : (if env.whisperAvailable = true
        then transcribeWithWhisper env.whisper else none) = none) :
    processBufferedAudio env roomId b
      = if b.chunks = [] then ([], none)
        else if 10 < (pyStrip
            (simulatedTranscription roomId b.lastChunkTime)).length then
          ([StoreCall.file roomId b.producerId b.lastChunkTime
              (simulatedTranscription roomId b.lastChunkTime)]
            ++ (if env.chromaAvailable = true then
                  [StoreCall.chroma roomId b.producerId b.lastChunkTime
                    (simulatedTranscription roomId b.lastChunkTime)]
                else []),
           some .fromSimulated)
        else ([], some .fromSimulated) := by
  simp only [processBufferedAudio, hn]

/-! ## Claim C1 -/

/-- **C1.** For every room buffer state, with
`elapsed = lastChunkTimeMs - firstChunkTimeMs` (after the append,
`lastChunkTimeMs` is the appended chunk's timestamp, which is exactly the
value the code subtracts `first_chunk_time` from), the flush decision
evaluated once per appended chunk is a deterministic pure function of
(elapsed, totalBytes, number of chunks) equal to the first matching rule
of the ordered table:
(1) elapsed ≥ 30000 ms ∧ totalBytes ≥ 100000 → OptimalDuration;
(2) totalBytes ≥ 500000 → SufficientBytes;
(3) totalBytes ≥ 1500000 → MaxBytes;
(4) elapsed ≥ 10000 ms ∧ totalBytes ≥ 200000 → MinDuration;
(5) elapsed ≥ 45000 ms → ForcedTimeout;
(6) chunks ≥ 500 ∧ totalBytes ≥ 300000 → ChunkCountFloor;
if no rule matches, the decision is to continue accumulating (`none`). -/
theorem flushDecision_eq_specFlushTable (e : Int) (tb nc : Nat) :
    flushDecision e tb nc = firstMatch specFlushTable e tb nc := by
  simp only [flushDecision, firstMatch, specFlushTable,
    WHISPER_OPTIMAL_DURATION_MS, MIN_BUFFER_SIZE, MAX_BUFFER_SIZE,
    MIN_AUDIO_DURATION_MS, FORCE_PROCESS_TIMEOUT_MS, MIN_CHUNK_COUNT,
    decide_eq_true_eq, Bool.decide_and, Bool.and_eq_true]

/-! ## Claim C10 -/

/-- **C10.** The flush decision never returns reason MaxBytes: a buffer
with `totalBytes ≥ 1500000` already satisfies the earlier SufficientBytes
condition (`totalBytes ≥ 500000`), so the MaxBytes branch is unreachable
and only the five other reasons (or continue) can occur. -/
theorem flushDecision_ne_maxBytes (e : Int) (tb nc : Nat) :
    flushDecision e tb nc ≠ some .maxBytes := by
  unfold flushDecision MIN_BUFFER_SIZE MAX_BUFFER_SIZE
  split_ifs with h1 h2 h3 <;> first | omega | simp

/-! ## Claim C7 -/

/-- **C7.** For every sequence of chunks appended to an initially empty
room buffer, after all appends: `totalBytes` is the sum of the appended
byte lengths, `chunks` is exactly the appended chunks in arrival order,
`firstChunkTimeMs` is the first appended chunk's timestamp (set only when
unset), and `lastChunkTimeMs` is the most recently appended chunk's
timestamp. -/
theorem appendAll_empty_bookkeeping (items : List AudioItem)
    (h : items ≠ []) :
    (appendAll emptyBuffer items).totalBytes
        = (items.map fun i => i.audioBytes.length).sum ∧
    (appendAll emptyBuffer items).chunks = items.map AudioItem.toBufChunk ∧
    (appendAll emptyBuffer items).firstChunkTime
        = some (items.head h).timestamp ∧
    (appendAll emptyBuffer items).lastChunkTime
        = (items.getLast h).timestamp := by
  obtain ⟨h1, h2, h3, h4⟩ := appendAll_spec items emptyBuffer
  refine ⟨by simpa [emptyBuffer] using h1,
    by simpa [emptyBuffer] using h2, ?_, ?_⟩
  · rw [h3]
    simp only [emptyBuffer, List.head?_map, Option.none_or]
    rw [List.head?_eq_head h]
    rfl
  · rw [h4]
    simp only [emptyBuffer]
    rw [List.getLastD_eq_getLast?, List.getLast?_map,
      List.getLast?_eq_getLast _ h]
    rfl

/-- Witness for C7 at a concrete two-chunk sequence. -/
theorem appendAll_empty_bookkeeping_witness :
    ([⟨"r", "p", 100, [1, 2, 3]⟩, ⟨"r", "p", 250, [4, 5]⟩]
        : List AudioItem) ≠ [] ∧
    (appendAll emptyBuffer
        [⟨"r", "p", 100, [1, 2, 3]⟩, ⟨"r", "p", 250, [4, 5]⟩]).totalBytes
      = 5 ∧
    (appendAll emptyBuffer
        [⟨"r", "p", 100, [1, 2, 3]⟩,
          ⟨"r", "p", 250, [4, 5]⟩]).firstChunkTime = some 100 ∧
    (appendAll emptyBuffer
        [⟨"r", "p", 100, [1, 2, 3]⟩,
          ⟨"r", "p", 250, [4, 5]⟩]).lastChunkTime = 250 := by
  have h := appendAll_empty_bookkeeping
    [⟨"r", "p", 100, [1, 2, 3]⟩, ⟨"r", "p", 250, [4, 5]⟩] (by decide)
  exact ⟨by decide, by rw [h.1]; decide, by rw [h.2.2.1]; decide,
    by rw [h.2.2.2]; decide⟩

/-! ## Claim C3 -/

/-- **C3 counterexample.** A result whose text has six distinct tokens,
whose `noSpeechProb` is 0.95 (≥ 0.7) and which has no segments — so the
spec's condition (b) fails — is nevertheless stored: check 2 of the code
accepts any non-empty low-repetition text regardless of confidence. -/
theorem storedResult_violating_specB :
    ¬ specAcceptB ⟨"alpha beta gamma delta epsilon zeta".toList,
        "en".toList, mkRat 95 100, []⟩ ∧
    (processBufferedAudio
        ⟨true, ⟨true, true, ⟨"alpha beta gamma delta epsilon zeta".toList,
          "en".toList, mkRat 95 100, []⟩⟩, false⟩
        "r1" ⟨[⟨[0], 5, 1⟩], 1, 5, some 0, some "p"⟩).1
      = [StoreCall.file "r1" (some "p") 5
          "alpha beta gamma delta epsilon zeta".toList] := by decide

/-- **C3 (amended).** The ASR result is stored exactly when: Whisper is
available, both decode gates pass, the stripped text passes the
final length gate (> 10 characters), and the code's acceptance
computation accepts — i.e. some segment has `noSpeechProb < 0.8`, OR the
stripped text is non-empty and has at most 5 tokens, OR it has more than
5 tokens with dominant-token share ≤ 0.6 and no teacher-pattern hit with
share > 0.3, OR the stripped text is empty and `noSpeechProb < 0.7`.
In particular the spec's conditions (b) and (c) are NOT necessary for
storage: a confident segment overrides (b) and (c), and a short text
needs no confidence at all. -/
theorem asrResult_stored_iff (env : FlushEnv) (roomId : String)
    (b : RoomBuffer) (hc : b.chunks ≠ []) :
    ((processBufferedAudio env roomId b).2 = some .fromAsr ∧
        (processBufferedAudio env roomId b).1 ≠ []) ↔
      (env.whisperAvailable = true ∧ env.whisper.decodeOk = true ∧
        env.whisper.wavBigEnough = true ∧
        (pyStrip (pyStrip env.whisper.asr.text)).length > 10 ∧
        ((∃ s ∈ env.whisper.asr.segments, s.noSpeechProb < mkRat 4 5) ∨
          (pyStrip env.whisper.asr.text ≠ [] ∧
            ((pyWords (pyStrip env.whisper.asr.text)).length ≤ 5 ∨
              (mkRat (maxWordCount (pyWords (pyStrip env.whisper.asr.text)))
                  (pyWords (pyStrip env.whisper.asr.text)).length
                  ≤ mkRat 3 5 ∧
                ¬((teacherPatterns.any fun p =>
                    pyContains (pyLower (pyStrip env.whisper.asr.text)) p)
                      = true ∧
                  mkRat
                    (maxWordCount (pyWords (pyStrip env.whisper.asr.text)))
                    (pyWords (pyStrip env.whisper.asr.text)).length
                    > mkRat 3 10)))) ∨
          (pyStrip env.whisper.asr.text = [] ∧
            env.whisper.asr.noSpeechProb < mkRat 7 10))) := by
  rw [processBufferedAudio_fromAsr_iff env roomId b hc,
    hasMeaningfulSpeech_iff]
  constructor <;> rintro ⟨h1, h2, h3, h4, h5⟩ <;> exact ⟨h1, h2, h3, h5, h4⟩

/-- Witness for C3 (amended) at a concrete accepted input. -/
theorem asrResult_stored_iff_witness :
    (⟨[⟨[0], 5, 1⟩], 1, 5, some 0, some "p"⟩ : RoomBuffer).chunks ≠ [] ∧
    ((processBufferedAudio
        ⟨true, ⟨true, true, ⟨"alpha beta gamma delta epsilon zeta".toList,
          "en".toList, mkRat 95 100, []⟩⟩, false⟩
        "r1" ⟨[⟨[0], 5, 1⟩], 1, 5, some 0, some "p"⟩).2
          = some .fromAsr ∧
      (processBufferedAudio
        ⟨true, ⟨true, true, ⟨"alpha beta gamma delta epsilon zeta".toList,
          "en".toList, mkRat 95 100, []⟩⟩, false⟩
        "r1" ⟨[⟨[0], 5, 1⟩], 1, 5, some 0, some "p"⟩).1 ≠ []) :=
  ⟨by decide,
    (asrResult_stored_iff
      ⟨true, ⟨true, true, ⟨"alpha beta gamma delta epsilon zeta".toList,
        "en".toList, mkRat 95 100, []⟩⟩, false⟩
      "r1" ⟨[⟨[0], 5, 1⟩], 1, 5, some 0, some "p"⟩
      (by decide)).mpr (by decide)⟩

/-! ## Claim C8 -/

/-- **C8 counterexample.** A three-word transcript of 35 characters with
`noSpeechProb = 0.99` and no segments is accepted and stored: check 2
accepts any non-empty text with at most 5 tokens regardless of
confidence, and the length gate passes. -/
theorem threeWordTranscript_stored :
    (pyWords (pyStrip
        " extraordinary magnificent wonderful ".toList)).length = 3 ∧
    (processBufferedAudio
        ⟨true, ⟨true, true,
          ⟨" extraordinary magnificent wonderful ".toList,
            "en".toList, mkRat 99 100, []⟩⟩, false⟩
        "r1" ⟨[⟨[0], 5, 1⟩], 1, 5, some 0, some "p"⟩).1
      = [StoreCall.file "r1" (some "p") 5
          "extraordinary magnificent wonderful".toList] := by decide

/-- **C8 (amended).** A three-word transcript always passes the
confidence and repetition checks (check 2 accepts any non-empty text of
at most 5 tokens, regardless of `noSpeechProb` and segments); it is
rejected — and nothing stored from it — exactly when its stripped text
fails the 10-character length gate. -/
theorem threeWordTranscript_stored_iff_length (env : FlushEnv)
    (roomId : String) (b : RoomBuffer) (hc : b.chunks ≠ [])
    (h3 : (pyWords (pyStrip env.whisper.asr.text)).length = 3)
    (hw : env.whisperAvailable = true) (hd : env.whisper.decodeOk = true)
    (hv : env.whisper.wavBigEnough = true) :
    ((processBufferedAudio env roomId b).2 = some .fromAsr ∧
        (processBufferedAudio env roomId b).1 ≠ []) ↔
      (pyStrip (pyStrip env.whisper.asr.text)).length > 10 := by
  rw [processBufferedAudio_fromAsr_iff env roomId b hc]
  have hacc := threeWords_accepted (pyStrip env.whisper.asr.text)
    env.whisper.asr.noSpeechProb env.whisper.asr.segments h3
  simp [hw, hd, hv, hacc]

/-- Witness for C8 (amended) at a concrete short three-word input
(`"ok no yes"`, 9 characters: rejected by the length gate alone). -/
theorem threeWordTranscript_stored_iff_length_witness :
    (⟨[⟨[0], 5, 1⟩], 1, 5, some 0, some "p"⟩ : RoomBuffer).chunks ≠ [] ∧
    (pyWords (pyStrip "ok no yes".toList)).length = 3 ∧
    ¬ ((processBufferedAudio
        ⟨true, ⟨true, true, ⟨"ok no yes".toList, "en".toList,
          mkRat 1 100, []⟩⟩, false⟩
        "r1" ⟨[⟨[0], 5, 1⟩], 1, 5, some 0, some "p"⟩).2
          = some .fromAsr ∧
      (processBufferedAudio
        ⟨true, ⟨true, true, ⟨"ok no yes".toList, "en".toList,
          mkRat 1 100, []⟩⟩, false⟩
        "r1" ⟨[⟨[0], 5, 1⟩], 1, 5, some 0, some "p"⟩).1 ≠ []) :=
  ⟨by decide, by decide,
    fun hp =>
      absurd ((threeWordTranscript_stored_iff_length
        ⟨true, ⟨true, true, ⟨"ok no yes".toList, "en".toList,
          mkRat 1 100, []⟩⟩, false⟩
        "r1" ⟨[⟨[0], 5, 1⟩], 1, 5, some 0, some "p"⟩
        (by decide) (by decide) rfl rfl rfl).mp hp) (by decide)⟩

/-! ## Claim C2 -/

/-- **C2 counterexample.** A flush whose ASR result fails the acceptance
filter (seven-fold repetition of "a", `noSpeechProb = 0.9`, no segments)
does NOT leave the stores untouched: lines 741-744 replace the rejected
(None) transcription by the simulated placeholder, which passes the
length gate and is stored. -/
theorem rejectedFlush_stores_placeholder :
    hasMeaningfulSpeech (pyStrip " a a a a a a a ".toList)
        (mkRat 9 10) [] = false ∧
    transcribeWithWhisper ⟨true, true, ⟨" a a a a a a a ".toList,
        "en".toList, mkRat 9 10, []⟩⟩ = none ∧
    (processBufferedAudio
        ⟨true, ⟨true, true, ⟨" a a a a a a a ".toList, "en".toList,
          mkRat 9 10, []⟩⟩, false⟩
        "r1" ⟨[⟨[0], 5, 1⟩], 1, 5, some 0, some "p"⟩).1
      = [StoreCall.file "r1" (some "p") 5
          (simulatedTranscription "r1" 5)] := by decide

/-- **C2 (amended).** For every flush whose ASR result fails the
acceptance filter, the rejected transcript itself is never stored: the
Whisper path returns `None`, the stored source is never the ASR text, and
every store call of such a flush carries the simulated placeholder text
instead (which, as the counterexample shows, is really stored). -/
theorem rejectedResult_never_stored (env : FlushEnv) (roomId : String)
    (b : RoomBuffer)
    (hrej : hasMeaningfulSpeech (pyStrip env.whisper.asr.text)
        env.whisper.asr.noSpeechProb env.whisper.asr.segments = false) :
    transcribeWithWhisper env.whisper = none ∧
    (processBufferedAudio env roomId b).2 ≠ some .fromAsr ∧
    ((processBufferedAudio env roomId b).1.all fun c =>
        c.text == simulatedTranscription roomId b.lastChunkTime)
      = true := by
  have hnone : transcribeWithWhisper env.whisper = none := by
    unfold transcribeWithWhisper
    rcases hd : env.whisper.decodeOk with _ | _
    · simp [hd]
    · rcases hv : env.whisper.wavBigEnough with _ | _
      · simp [hd, hv]
      · simp [hd, hv, hrej]
  have hn : (if env.whisperAvailable = true
      then transcribeWithWhisper env.whisper else none) = none := by
    rcases env.whisperAvailable <;> simp [hnone]
  refine ⟨hnone, ?_, ?_⟩
  · rw [processBufferedAudio_none env roomId b hn]
    split
    · simp
    · split <;> simp
  · rw [processBufferedAudio_none env roomId b hn]
    split
    · simp
    · split
      · rcases env.chromaAvailable <;> simp [StoreCall.text]
      · simp

/-- Witness for C2 (amended) at the concrete rejected input. -/
theorem rejectedResult_never_stored_witness :
    hasMeaningfulSpeech (pyStrip " a a a a a a a ".toList)
        (mkRat 9 10) [] = false ∧
    (transcribeWithWhisper ⟨true, true, ⟨" a a a a a a a ".toList,
        "en".toList, mkRat 9 10, []⟩⟩ = none ∧
      (processBufferedAudio
          ⟨true, ⟨true, true, ⟨" a a a a a a a ".toList, "en".toList,
            mkRat 9 10, []⟩⟩, false⟩
          "r2" ⟨[⟨[0], 5, 1⟩], 1, 5, some 0, some "p"⟩).2
        ≠ some .fromAsr ∧
      ((processBufferedAudio
          ⟨true, ⟨true, true, ⟨" a a a a a a a ".toList, "en".toList,
            mkRat 9 10, []⟩⟩, false⟩
          "r2" ⟨[⟨[0], 5, 1⟩], 1, 5, some 0, some "p"⟩).1.all fun c =>
            c.text == simulatedTranscription "r2" 5) = true) :=
  ⟨by decide,
    rejectedResult_never_stored
      ⟨true, ⟨true, true, ⟨" a a a a a a a ".toList, "en".toList,
        mkRat 9 10, []⟩⟩, false⟩
      "r2" ⟨[⟨[0], 5, 1⟩], 1, 5, some 0, some "p"⟩ (by decide)⟩

/-! ## Claim C4 -/

/-- **C4 counterexample.** A flush in which the decode step fails (both
ffmpeg interpretations) does NOT store nothing: the simulated placeholder
is stored (lines 741-751). -/
theorem decodeFailure_stores_placeholder :
    (processBufferedAudio
        ⟨true, ⟨false, true, ⟨"hello there everyone".toList, "en".toList,
          mkRat 1 100, []⟩⟩, false⟩
        "r1" ⟨[⟨[0], 5, 1⟩], 1, 5, some 0, some "p"⟩).1
      = [StoreCall.file "r1" (some "p") 5
          (simulatedTranscription "r1" 5)] := by decide

/-- **C4 (amended).** For every flush in which the decode step fails,
no ASR call is made — the Whisper path returns `None` and the flush
outcome is independent of the ASR result — and the ASR transcript is
never stored: every store call of such a flush carries the simulated
placeholder text (the buffer reset after the flush is the frame effect
proved for every flush attempt). -/
theorem decodeFailure_no_asr_call (env : FlushEnv) (roomId : String)
    (b : RoomBuffer) (r' : AsrResult)
    (hdec : env.whisper.decodeOk = false) :
    transcribeWithWhisper env.whisper = none ∧
    processBufferedAudio (env.withAsr r') roomId b
      = processBufferedAudio env roomId b ∧
    (processBufferedAudio env roomId b).2 ≠ some .fromAsr ∧
    ((processBufferedAudio env roomId b).1.all fun c =>
        c.text == simulatedTranscription roomId b.lastChunkTime)
      = true := by
  have hnone : transcribeWithWhisper env.whisper = none := by
    unfold transcribeWithWhisper
    simp [hdec]
  have hnone' : transcribeWithWhisper (env.withAsr r').whisper = none := by
    unfold transcribeWithWhisper FlushEnv.withAsr
    simp [hdec]
  have hn : (if env.whisperAvailable = true
      then transcribeWithWhisper env.whisper else none) = none := by
    rcases env.whisperAvailable <;> simp [hnone]
  have hn' : (if (env.withAsr r').whisperAvailable = true
      then transcribeWithWhisper (env.withAsr r').whisper else none)
        = none := by
    rcases hw : (env.withAsr r').whisperAvailable <;> simp [hnone']
  refine ⟨hnone, ?_, ?_, ?_⟩
  · rw [processBufferedAudio_none env roomId b hn,
      processBufferedAudio_none (env.withAsr r') roomId b hn']
    simp [FlushEnv.withAsr]
  · rw [processBufferedAudio_none env roomId b hn]
    split
    · simp
    · split <;> simp
  · rw [processBufferedAudio_none env roomId b hn]
    split
    · simp
    · split
      · rcases env.chromaAvailable <;> simp [StoreCall.text]
      · simp

/-- Witness for C4 (amended): the decode-failed flush behaves identically
for two different ASR results. -/
theorem decodeFailure_no_asr_call_witness :
    (⟨true, ⟨false, true, ⟨"hello there everyone".toList, "en".toList,
        mkRat 1 100, []⟩⟩, false⟩ : FlushEnv).whisper.decodeOk = false ∧
    (transcribeWithWhisper ⟨false, true, ⟨"hello there everyone".toList,
        "en".toList, mkRat 1 100, []⟩⟩ = none ∧
      processBufferedAudio
          ((⟨true, ⟨false, true, ⟨"hello there everyone".toList,
            "en".toList, mkRat 1 100, []⟩⟩, false⟩ : FlushEnv).withAsr
            ⟨"completely different words".toList, "en".toList,
              mkRat 1 2, []⟩)
          "r1" ⟨[⟨[0], 5, 1⟩], 1, 5, some 0, some "p"⟩
        = processBufferedAudio
            ⟨true, ⟨false, true, ⟨"hello there everyone".toList,
              "en".toList, mkRat 1 100, []⟩⟩, false⟩
            "r1" ⟨[⟨[0], 5, 1⟩], 1, 5, some 0, some "p"⟩ ∧
      (processBufferedAudio
          ⟨true, ⟨false, true, ⟨"hello there everyone".toList,
            "en".toList, mkRat 1 100, []⟩⟩, false⟩
          "r1" ⟨[⟨[0], 5, 1⟩], 1, 5, some 0, some "p"⟩).2
        ≠ some .fromAsr ∧
      ((processBufferedAudio
          ⟨true, ⟨false, true, ⟨"hello there everyone".toList,
            "en".toList, mkRat 1 100, []⟩⟩, false⟩
          "r1" ⟨[⟨[0], 5, 1⟩], 1, 5, some 0, some "p"⟩).1.all fun c =>
            c.text == simulatedTranscription "r1" 5) = true) :=
  ⟨rfl,
    decodeFailure_no_asr_call
      ⟨true, ⟨false, true, ⟨"hello there everyone".toList, "en".toList,
        mkRat 1 100, []⟩⟩, false⟩
      "r1" ⟨[⟨[0], 5, 1⟩], 1, 5, some 0, some "p"⟩
      ⟨"completely different words".toList, "en".toList, mkRat 1 2, []⟩
      rfl⟩

/-! ## Claim C5 -/

/-- **C5.** After every flush triggered by an appended chunk — for every
environment outcome, i.e. whether the flush succeeds, the decode fails,
or the transcript is rejected — the room buffer is reset: `chunks` is
empty, `totalBytes` is 0, `firstChunkTimeMs` is cleared, and
`lastChunkTimeMs` is the timestamp of the chunk that triggered the
flush. -/
theorem flush_resets_buffer (env : FlushEnv) (roomId : String)
    (b : RoomBuffer) (item : AudioItem) (r : FlushReason)
    (h : (processChunkStep env roomId b item).2.2 = some r) :
    (processChunkStep env roomId b item).1
      = { chunks := [], totalBytes := 0,
          lastChunkTime := item.timestamp, firstChunkTime := none,
          producerId := some item.producerId } := by
  unfold processChunkStep at h ⊢
  by_cases hsize : item.audioBytes.length > MAX_AUDIO_FILE_SIZE
  · simp [hsize] at h
  · simp only [if_neg hsize] at h ⊢
    rcases hd : flushDecision (item.timestamp -
        (appendChunk b item).firstChunkTime.getD item.timestamp)
        (appendChunk b item).totalBytes
        (appendChunk b item).chunks.length with _ | r''
    · rw [hd] at h
      simp at h
    · rfl

/-- Witness for C5: a one-byte chunk arriving 50 s after the first chunk
triggers a ForcedTimeout flush, and the buffer is reset. -/
theorem flush_resets_buffer_witness :
    (processChunkStep ⟨true, ⟨true, true, ⟨[], [], 1, []⟩⟩, false⟩ "r1"
        ⟨[], 0, 0, some 0, none⟩ ⟨"r1", "p", 50000, [7]⟩).2.2
      = some .forcedTimeout ∧
    (processChunkStep ⟨true, ⟨true, true, ⟨[], [], 1, []⟩⟩, false⟩ "r1"
        ⟨[], 0, 0, some 0, none⟩ ⟨"r1", "p", 50000, [7]⟩).1
      = { chunks := [], totalBytes := 0, lastChunkTime := 50000,
          firstChunkTime := none, producerId := some "p" } :=
  ⟨by decide,
    flush_resets_buffer ⟨true, ⟨true, true, ⟨[], [], 1, []⟩⟩, false⟩ "r1"
      ⟨[], 0, 0, some 0, none⟩ ⟨"r1", "p", 50000, [7]⟩ .forcedTimeout
      (by decide)⟩

/-! ## Claim C6 -/

/-- **C6 counterexample.** A chunk whose payload exceeds the 10 MiB
maximum IS enqueued into the room's queue by the ingestion path: neither
`handle_audio_chunk` nor `add_audio_chunk` checks the size, so the claim
"never enqueued, never reaches a Room Worker" is false. -/
theorem oversizedChunk_is_enqueued :
    (List.replicate (MAX_AUDIO_FILE_SIZE + 1) (0 : Nat)).length
        > MAX_AUDIO_FILE_SIZE ∧
    (handleAudioChunk []
        ⟨"r1", "p1", 0, List.replicate (MAX_AUDIO_FILE_SIZE + 1) 0⟩).2
      = true ∧
    (handleAudioChunk []
        ⟨"r1", "p1", 0, List.replicate (MAX_AUDIO_FILE_SIZE + 1) 0⟩).1
      = [⟨"r1", "p1", 0, List.replicate (MAX_AUDIO_FILE_SIZE + 1) 0⟩] := by
  refine ⟨by simp, ?_, ?_⟩ <;> simp [handleAudioChunk, addAudioChunk]

/-- **C6 (amended).** An oversized chunk is enqueued and dequeued, but the
worker drops it at the start of its iteration (line 610-612), before any
buffer mutation: the buffer is returned unchanged, no store call is made,
and no flush is triggered — so it never affects any buffer's `totalBytes`
or chunk list. -/
theorem oversizedChunk_never_buffered (env : FlushEnv) (roomId : String)
    (b : RoomBuffer) (item : AudioItem)
    (h : item.audioBytes.length > MAX_AUDIO_FILE_SIZE) :
    processChunkStep env roomId b item = (b, [], none) := by
  simp [processChunkStep, h]

/-- Witness for C6 (amended) at a concrete oversized chunk. -/
theorem oversizedChunk_never_buffered_witness :
    (List.replicate (MAX_AUDIO_FILE_SIZE + 1) (0 : Nat)).length
        > MAX_AUDIO_FILE_SIZE ∧
    processChunkStep ⟨true, ⟨true, true, ⟨[], [], 1, []⟩⟩, false⟩ "r1"
        ⟨[⟨[0], 5, 1⟩], 1, 5, some 0, some "p"⟩
        ⟨"r1", "p", 9, List.replicate (MAX_AUDIO_FILE_SIZE + 1) 0⟩
      = (⟨[⟨[0], 5, 1⟩], 1, 5, some 0, some "p"⟩, [], none) :=
  ⟨by simp,
    oversizedChunk_never_buffered
      ⟨true, ⟨true, true, ⟨[], [], 1, []⟩⟩, false⟩ "r1"
      ⟨[⟨[0], 5, 1⟩], 1, 5, some 0, some "p"⟩
      ⟨"r1", "p", 9, List.replicate (MAX_AUDIO_FILE_SIZE + 1) 0⟩
      (by simp)⟩

/-! ## Claim C9 -/

/-- The explored list is closed under the interleaving step relation. -/
theorem reachList_closed :
    ∀ s ∈ reachList, ∀ t ∈ regSuccs s, t ∈ reachList := by decide

/-- The initial state is explored. -/
theorem initRegistry_mem : initRegistry ∈ reachList := by decide

/-- Every reachable state is in the explored list. -/
theorem reachable_mem_reachList (s : RegistryState) (h : ReachableReg s) :
    s ∈ reachList := by
  induction h with
  | init => exact initRegistry_mem
  | step hs hmem ih => exact reachList_closed _ ih _ hmem

/-- **C9.** Under every interleaving of two threads concurrently
delivering a first chunk for the same room, the double-checked
check-lock-recheck-create pattern creates at most one worker in every
reachable state; and when both threads have finished, exactly one worker
was created and both chunks were enqueued (none dropped). -/
theorem oneWorkerPerRoom (s : RegistryState) (h : ReachableReg s) :
    s.createCount ≤ 1 ∧
      (s.pc1 = .done ∧ s.pc2 = .done →
        s.createCount = 1 ∧ s.queueLen = 2 ∧ s.droppedCount = 0) := by
  have hall : ∀ x ∈ reachList, x.createCount ≤ 1 ∧
      (x.pc1 = .done ∧ x.pc2 = .done →
        x.createCount = 1 ∧ x.queueLen = 2 ∧ x.droppedCount = 0) := by
    decide
  exact hall s (reachable_mem_reachList s h)

/-- Witness for C9: an explicit interleaving (thread 1 runs to completion,
then thread 2 sees the queue and only enqueues) reaches the terminal
state, which satisfies the invariant. -/
theorem oneWorkerPerRoom_witness :
    (⟨true, false, 1, 2, 0, .done, .done⟩
        : RegistryState).createCount ≤ 1 ∧
    ((⟨true, false, 1, 2, 0, .done, .done⟩ : RegistryState).pc1 = .done ∧
      (⟨true, false, 1, 2, 0, .done, .done⟩ : RegistryState).pc2 = .done →
      (⟨true, false, 1, 2, 0, .done, .done⟩
          : RegistryState).createCount = 1 ∧
      (⟨true, false, 1, 2, 0, .done, .done⟩
          : RegistryState).queueLen = 2 ∧
      (⟨true, false, 1, 2, 0, .done, .done⟩
          : RegistryState).droppedCount = 0) := by
  have h1 : ReachableReg ⟨false, false, 0, 0, 0, .wantLock, .start⟩ :=
    .step .init (by decide)
  have h2 : ReachableReg ⟨false, true, 0, 0, 0, .inCritical, .start⟩ :=
    .step h1 (by decide)
  have h3 : ReachableReg ⟨true, false, 1, 0, 0, .beforePut, .start⟩ :=
    .step h2 (by decide)
  have h4 : ReachableReg ⟨true, false, 1, 1, 0, .done, .start⟩ :=
    .step h3 (by decide)
  have h5 : ReachableReg ⟨true, false, 1, 1, 0, .done, .beforePut⟩ :=
    .step h4 (by decide)
  have h6 : ReachableReg ⟨true, false, 1, 2, 0, .done, .done⟩ :=
    .step h5 (by decide)
  exact oneWorkerPerRoom _ h6

end EduCore
